import Mathlib

/-
Verification of the Ermis message-router core (Zeus ecosystem).

This file shallowly embeds the relevant parts of the Python sources
  core/ermis/ermis_security.py        (SecurityValidator, RateLimiter)
  core/ermis/ermis_olympus.py         (Olympus, StorageRouter)
  core/ermis/ermis_pipeline.py        (RequestPipeline)
  core/ermis/ermis_request_response.py (RequestResponseManager)
  core/ermis/ermis_messenger.py       (Message, ErmisMessenger)
as executable Lean definitions, and proves or refutes the specification
claims about them.

Modelling conventions:
  * Python JSON-like values become the inductive type `Data`
    (strings, ints, bools, None, lists, string-keyed dicts).
  * Python floats (timestamps, timeouts) are modelled as rationals.
  * Machine-dependent primitives with no logical content
    (sys.getsizeof-based sizes, sha256 hashes, the keyword inference over
    Python str(request)) are modelled as parameters of an environment
    record; no claim depends on their values.
  * Fallible paths (Python exceptions such as KeyError/AttributeError that
    the code does not catch) are modelled with Option.
-/

set_option maxRecDepth 100000

namespace Ermis

/-- JSON-like value trees: the shape of Python request `data` payloads. -/
inductive Data where
  | str : String → Data
  | int : Int → Data
  | bool : Bool → Data
  | null : Data
  | list : List Data → Data
  | dict : List (String × Data) → Data

/-- First-match association-list lookup, modelling Python dict lookup
(keys are unique in every state the code builds). -/
def lookupS {β : Type} (k : String) : List (String × β) → Option β
  | [] => none
  | (k2, v) :: rest => if k2 = k then some v else lookupS k rest

/-- Dict field access, modelling `d.get(k)` on a Python dict. -/
def getField (d : Data) (k : String) : Option Data :=
  match d with
  | .dict kvs => lookupS k kvs
  | _ => none

/-- Python truthiness of a `Data` value. -/
def pyTruthy : Data → Bool
  | .str s => s != ""
  | .int n => n != 0
  | .bool b => b
  | .null => false
  | .list ds => !ds.isEmpty
  | .dict kvs => !kvs.isEmpty

/-! ## Dangerous-pattern matching (SecurityValidator.dangerous_patterns)

The deny-list regexes of ermis_security.py all have the shape
`literal`, `literal\s*\(`, or (in the system patterns of
_validate_code_safety) `literal\s+literal`.  They are searched with
re.IGNORECASE, which we model by lowercasing the haystack. -/

/-- Whitespace class of the regexes (Python re `\s`, ASCII part). -/
def wsChar (c : Char) : Bool :=
  c == ' ' || c == '\t' || c == '\n' || c == Char.ofNat 13 ||
  c == Char.ofNat 11 || c == Char.ofNat 12

/-- Does `needle` occur as a leading segment of `hay`? -/
def startsWithCL : List Char → List Char → Bool
  | [], _ => true
  | _ :: _, [] => false
  | n :: ns, c :: cs => n == c && startsWithCL ns cs

/-- Strip `needle` from the front of `hay`, returning the remainder. -/
def dropPre : List Char → List Char → Option (List Char)
  | [], cs => some cs
  | _ :: _, [] => none
  | n :: ns, c :: cs => if n == c then dropPre ns cs else none

/-- Whitespace joiner of a two-literal pattern: none, `\s*`, or `\s+`. -/
inductive WsMode where
  | exact
  | star
  | plus
deriving DecidableEq

/-- One deny-list pattern: `lit1`, then the whitespace joiner, then `lit2`.
`src` is the original regex text, used only in failure messages. -/
structure DPat where
  src : String
  lit1 : String
  mode : WsMode
  lit2 : String

/-- Try to match pattern `p` starting exactly at the head of `cs`.
For `\s*`/`\s+` the greedy skip is exact because every `lit2` used by the
code starts with a non-whitespace character. -/
def matchAtPos (p : DPat) (cs : List Char) : Bool :=
  match dropPre p.lit1.data cs with
  | none => false
  | some rest =>
    match p.mode with
    | .exact => startsWithCL p.lit2.data rest
    | .star => startsWithCL p.lit2.data (rest.dropWhile wsChar)
    | .plus =>
      match rest with
      | [] => false
      | c :: _ => wsChar c && startsWithCL p.lit2.data (rest.dropWhile wsChar)

/-- re.search: try the pattern at every position. -/
def searchPat (p : DPat) : List Char → Bool
  | [] => matchAtPos p []
  | c :: rest => matchAtPos p (c :: rest) || searchPat p rest

/-- Substring test (Python `needle in hay`). -/
def containsCL (needle : List Char) : List Char → Bool
  | [] => startsWithCL needle []
  | c :: rest => startsWithCL needle (c :: rest) || containsCL needle rest

/-- Python `needle in hay` on strings. -/
def substrS (needle hay : String) : Bool :=
  containsCL needle.data hay.data

/-- SecurityValidator.dangerous_patterns, in source order. -/
def dangerousPatterns : List DPat :=
  [⟨"__import__", "__import__", .exact, ""⟩,
   ⟨"exec\\s*\\(", "exec", .star, "("⟩,
   ⟨"eval\\s*\\(", "eval", .star, "("⟩,
   ⟨"compile\\s*\\(", "compile", .star, "("⟩,
   ⟨"globals\\s*\\(", "globals", .star, "("⟩,
   ⟨"locals\\s*\\(", "locals", .star, "("⟩,
   ⟨"__builtins__", "__builtins__", .exact, ""⟩,
   ⟨"__class__", "__class__", .exact, ""⟩,
   ⟨"__subclasses__", "__subclasses__", .exact, ""⟩,
   ⟨"__code__", "__code__", .exact, ""⟩,
   ⟨"os\\.", "os.", .exact, ""⟩,
   ⟨"subprocess\\.", "subprocess.", .exact, ""⟩,
   ⟨"open\\s*\\(", "open", .star, "("⟩,
   ⟨"file\\s*\\(", "file", .star, "("⟩]

/-- Case-normalised character list of a string (models re.IGNORECASE). -/
def lowerCL (s : String) : List Char :=
  s.data.map Char.toLower

/-- Does the string match some deny-listed dangerous pattern? -/
def matchesDangerous (s : String) : Bool :=
  dangerousPatterns.any (fun p => searchPat p (lowerCL s))

/-! ## Recursive sanitization (SecurityValidator._sanitize_data) -/

def MAX_STRING_LENGTH : Nat := 10000
def MAX_LIST_SIZE : Nat := 1000
def MAX_DICT_SIZE : Nat := 500
def MAX_RECURSION_DEPTH : Nat := 10

/-- SecurityValidator._sanitize_string: strings longer than
MAX_STRING_LENGTH are truncated (and returned without a pattern scan,
exactly as in the source); otherwise a dangerous match yields None. -/
def sanitizeString (s : String) : Option String :=
  if s.data.length > MAX_STRING_LENGTH then some ⟨s.data.take MAX_STRING_LENGTH⟩
  else if matchesDangerous s then none
  else some s

/-- SecurityValidator._is_safe_key. -/
def isSafeKey (k : String) : Bool :=
  k.data.length < 100 &&
  !(startsWithCL "__".data k.data) &&
  !(substrS "exec" k || substrS "eval" k || substrS "__" k)

/-- SecurityValidator._sanitize_data, with the depth budget made an
explicit structural fuel: fuel `n` corresponds to Python depth
`MAX_RECURSION_DEPTH + 1 - n`, so fuel 0 is exactly the
`depth > MAX_RECURSION_DEPTH` early None.  A list element whose
sanitization yields None stays in the list as Python None (`.null`);
a dict entry whose key is unsafe or whose value sanitizes to None is
dropped. -/
def sanitizeDataAux : Nat → Data → Option Data
  | 0, _ => none
  | _ + 1, .str s => (sanitizeString s).map Data.str
  | _ + 1, .int n => some (.int n)
  | _ + 1, .bool b => some (.bool b)
  | _ + 1, .null => none
  | fuel + 1, .list ds =>
    if ds.length > MAX_LIST_SIZE then none
    else some (.list (ds.map (fun d => (sanitizeDataAux fuel d).getD .null)))
  | fuel + 1, .dict kvs =>
    if kvs.length > MAX_DICT_SIZE then none
    else some (.dict (kvs.filterMap (fun kv =>
      if isSafeKey kv.1 then (sanitizeDataAux fuel kv.2).map (fun sv => (kv.1, sv))
      else none)))

/-- SecurityValidator._sanitize_data with its Python depth argument. -/
def sanitizeData (d : Data) (depth : Nat) : Option Data :=
  sanitizeDataAux (MAX_RECURSION_DEPTH + 1 - depth) d

/-- Occurrence of a string as a string value (not a dict key) somewhere in
a data tree. -/
inductive StringIn : String → Data → Prop where
  | here (s : String) : StringIn s (.str s)
  | inList {s : String} {d : Data} {ds : List Data} :
      d ∈ ds → StringIn s d → StringIn s (.list ds)
  | inDict {s : String} {k : String} {v : Data} {kvs : List (String × Data)} :
      (k, v) ∈ kvs → StringIn s v → StringIn s (.dict kvs)

/-- Shape of a successful string sanitization: either the string was short
and clean and is returned unchanged, or it was truncated to exactly
MAX_STRING_LENGTH characters (without any dangerous-pattern scan). -/
theorem sanitizeString_out {u t : String} (h : sanitizeString u = some t) :
    (t = u ∧ matchesDangerous u = false) ∨ t.data.length = MAX_STRING_LENGTH := by
  unfold sanitizeString at h
  split at h
  · right
    rename_i hgt
    cases h
    simpa [List.length_take] using Nat.min_eq_left (Nat.le_of_lt hgt)
  · split at h
    · cases h
    · left
      cases h
      rename_i hnd
      exact ⟨rfl, by simpa using hnd⟩

/-- Core of the amended C1: a dangerous string strictly shorter than the
truncation bound never occurs as a string value of the sanitized output,
at any fuel (hence at any recursion depth). -/
theorem sanitizeAux_no_short_dangerous (fuel : Nat) :
    ∀ (d : Data) (s : String), matchesDangerous s = true →
      s.data.length < MAX_STRING_LENGTH →
      ¬ StringIn s ((sanitizeDataAux fuel d).getD .null) := by
  induction fuel with
  | zero =>
    intro d s _ _ hin
    simp only [sanitizeDataAux, Option.getD_none] at hin
    cases hin
  | succ n ih =>
    intro d s hdang hlen hin
    cases d with
    | str u =>
      simp only [sanitizeDataAux] at hin
      cases hu : sanitizeString u with
      | none => rw [hu] at hin; simp only [Option.map_none', Option.getD_none] at hin; cases hin
      | some t =>
        rw [hu] at hin
        simp only [Option.map_some', Option.getD_some] at hin
        cases hin
        rcases sanitizeString_out hu with ⟨rfl, hclean⟩ | hmax
        · rw [hdang] at hclean; cases hclean
        · omega
    | int m =>
      simp only [sanitizeDataAux, Option.getD_some] at hin; cases hin
    | bool b =>
      simp only [sanitizeDataAux, Option.getD_some] at hin; cases hin
    | null =>
      simp only [sanitizeDataAux, Option.getD_none] at hin; cases hin
    | list ds =>
      by_cases hlong : ds.length > MAX_LIST_SIZE
      · simp only [sanitizeDataAux, if_pos hlong, Option.getD_none] at hin; cases hin
      · simp only [sanitizeDataAux, if_neg hlong, Option.getD_some] at hin
        cases hin with
        | inList hmem hsub =>
          rcases List.mem_map.mp hmem with ⟨x, _, rfl⟩
          exact ih x s hdang hlen hsub
    | dict kvs =>
      by_cases hlong : kvs.length > MAX_DICT_SIZE
      · simp only [sanitizeDataAux, if_pos hlong, Option.getD_none] at hin; cases hin
      · simp only [sanitizeDataAux, if_neg hlong, Option.getD_some] at hin
        cases hin with
        | inDict hmem hsub =>
          rcases List.mem_filterMap.mp hmem with ⟨kv, _, hf⟩
          split at hf
          · rcases Option.map_eq_some'.mp hf with ⟨sv, hsv, heq⟩
            have hv : sv = _ := congrArg Prod.snd heq
            refine ih kv.2 s hdang hlen ?_
            rw [hsv, Option.getD_some, hv]
            exact hsub
          · cases hf

/-- C1 exactly as the specification states it, for a given input tree:
every dangerous string value of the input is absent from the sanitized
output. -/
def c1Claimed (d : Data) : Prop :=
  ∀ s : String, StringIn s d → matchesDangerous s = true →
    ¬ StringIn s ((sanitizeData d 0).getD .null)

/-- Input refuting C1: a dangerous string of exactly MAX_STRING_LENGTH
characters, next to a one-character-longer copy of it. -/
def longImport : String := ⟨"__import__".data ++ List.replicate 9990 'a'⟩

/-- The same dangerous string padded to MAX_STRING_LENGTH + 1 characters:
sanitization truncates it back to `longImport` without scanning it. -/
def longImportPad : String := ⟨longImport.data ++ ['a']⟩

/-- The concrete request-data tree on which C1 fails. -/
def c1Input : Data := .list [.str longImport, .str longImportPad]

theorem longImport_length : longImport.data.length = 10000 := by
  have h10 : ("__import__".data).length = 10 := rfl
  show ("__import__".data ++ List.replicate 9990 'a').length = 10000
  rw [List.length_append, h10, List.length_replicate]

theorem sanitizeString_longImport : sanitizeString longImport = none := by
  unfold sanitizeString
  rw [if_neg (by rw [longImport_length]; decide),
    if_pos (by decide : matchesDangerous longImport = true)]

theorem sanitizeString_longImportPad :
    sanitizeString longImportPad = some longImport := by
  have hlen : longImportPad.data.length = 10001 := by
    show (longImport.data ++ ['a']).length = 10001
    rw [List.length_append, longImport_length]
    rfl
  have htake : longImportPad.data.take MAX_STRING_LENGTH = longImport.data :=
    List.take_left' longImport_length
  unfold sanitizeString
  rw [if_pos (by rw [hlen]; decide), htake]

theorem c1_sanitize_output :
    (sanitizeData c1Input 0).getD Data.null
      = Data.list [Data.null, Data.str longImport] := by
  show (sanitizeDataAux (10 + 1) c1Input).getD Data.null
      = Data.list [Data.null, Data.str longImport]
  simp only [c1Input, sanitizeDataAux, List.map_cons, List.map_nil,
    sanitizeString_longImport, sanitizeString_longImportPad,
    Option.map_none', Option.map_some', Option.getD_none, Option.getD_some]
  rw [if_neg (by decide)]
  rfl

/-- C1 (counterexample): the sanitization-safety claim fails as stated.
On `c1Input`, the string `longImport` matches the dangerous pattern
`__import__`, occurs as a string value of the input, and still occurs in
the sanitized output: its padded copy `longImportPad` is longer than
MAX_STRING_LENGTH, so `_sanitize_string` truncates it back to
`longImport` and returns it without any dangerous-pattern scan. -/
theorem c1_counterexample : ¬ c1Claimed c1Input := by
  intro h
  refine h longImport (StringIn.inList (List.Mem.head _) (StringIn.here _))
    (by decide) ?_
  rw [c1_sanitize_output]
  exact StringIn.inList (List.Mem.tail _ (List.Mem.head _)) (StringIn.here _)

/-- C1 (amended): a string value that matches a deny-listed dangerous
pattern and is strictly shorter than the truncation bound
MAX_STRING_LENGTH is absent from the sanitized data, for every input tree
and every recursion depth.  (Dangerous strings of length at least the
bound can survive sanitization, truncated to exactly MAX_STRING_LENGTH
characters, because `_sanitize_string` returns a truncated over-long
string without scanning it; in lists a dropped string leaves None in its
place.) -/
theorem c1_short_dangerous_absent (d : Data) (depth : Nat) (s : String)
    (hdang : matchesDangerous s = true)
    (hshort : s.data.length < MAX_STRING_LENGTH) :
    ¬ StringIn s ((sanitizeData d depth).getD .null) :=
  sanitizeAux_no_short_dangerous _ d s hdang hshort

/-- C1 witness: the amended theorem applied at a concrete dangerous
string nested one level deep in a dict. -/
theorem c1_witness :
    matchesDangerous "eval (x)" = true ∧
      ¬ StringIn "eval (x)"
        ((sanitizeData (.dict [("k", .str "eval (x)")]) 0).getD .null) :=
  ⟨by decide,
    c1_short_dangerous_absent (.dict [("k", .str "eval (x)")]) 0 "eval (x)"
      (by decide) (by decide)⟩

/-! ## Request-Response Correlator (ermis_request_response.py)

Python `time.time()` float timestamps and timeouts are modelled as
integers: only their ordering and differences matter to the code.
The `Queue(maxsize=1)` response queue of a pending request is modelled as
an `Option` slot (`put_nowait` on a full queue raises, which
`handle_response` turns into `return False`).  The manager state is its
`pending_requests` dict, modelled as a unique-key association list. -/

/-- PendingRequest of ermis_request_response.py (the callback field is
omitted: every call site in the repository leaves it None). -/
structure PendingRequest (α : Type) where
  requestId : String
  source : String
  destination : String
  requestTime : Int
  timeout : Int
  slot : Option α
deriving DecidableEq

/-- The `pending_requests` dict of a RequestResponseManager. -/
abbrev PendingMap (α : Type) := List (String × PendingRequest α)

/-- RequestResponseManager._remove_request: pops the entry and returns
the Python function value — always None (modelled as `none : Option Unit`),
since the Python body has no return statement. -/
def removeRequest {α : Type} (m : PendingMap α) (rid : String) :
    PendingMap α × Option Unit :=
  (m.filter (fun kv => !(kv.1 == rid)), none)

/-- In-place overwrite of the value stored under an existing key
(Python `dict[k] = v` mutation, on a unique-key association list). -/
def updateS {β : Type} (k : String) (v : β) : List (String × β) → List (String × β) :=
  List.map (fun kv => if kv.1 = k then (kv.1, v) else kv)

/-- RequestResponseManager.handle_response at current time `now`.
Returns the boolean result together with the updated pending map. -/
def handleResponse {α : Type} (m : PendingMap α) (now : Int) (rid : String)
    (data : α) : Bool × PendingMap α :=
  match lookupS rid m with
  | none => (false, m)
  | some p =>
    if now - p.requestTime > p.timeout then
      (false, (removeRequest m rid).1)
    else
      match p.slot with
      | none => (true, updateS rid { p with slot := some data } m)
      | some _ => (false, m)

/-- RequestResponseManager.cancel_request: returns whether
`_remove_request`'s return value `is not None`. -/
def cancelRequest {α : Type} (m : PendingMap α) (rid : String) :
    Bool × PendingMap α :=
  ((removeRequest m rid).2.isSome, (removeRequest m rid).1)

theorem lookupS_filter_ne {β : Type} (rid : String) (m : List (String × β)) :
    lookupS rid (m.filter (fun kv => !(kv.1 == rid))) = none := by
  induction m with
  | nil => rfl
  | cons kv rest ih =>
    obtain ⟨k2, v⟩ := kv
    rw [List.filter_cons]
    by_cases h : k2 = rid
    · rw [if_neg (by simp [h])]
      exact ih
    · rw [if_pos (by simp [h])]
      simpa [lookupS, h] using ih

theorem lookupS_updateS {β : Type} (rid : String) (m : List (String × β))
    (p p' : β) (h : lookupS rid m = some p) :
    lookupS rid (updateS rid p' m) = some p' := by
  induction m with
  | nil => cases h
  | cons kv rest ih =>
    obtain ⟨k2, v⟩ := kv
    show lookupS rid ((if k2 = rid then (k2, p') else (k2, v)) :: updateS rid p' rest)
      = some p'
    by_cases hk : k2 = rid
    · rw [if_pos hk]
      show (if k2 = rid then some p' else lookupS rid (updateS rid p' rest)) = some p'
      rw [if_pos hk]
    · rw [if_neg hk]
      show (if k2 = rid then some v else lookupS rid (updateS rid p' rest)) = some p'
      rw [if_neg hk]
      apply ih
      simpa [lookupS, hk] using h

/-- C2 exactly as the specification states it (at response type String):
absent or expired entries yield false; otherwise the response is
delivered, true is returned, and the pending entry is removed from the
pending-request map. -/
def c2Claimed : Prop :=
  ∀ (m : PendingMap String) (now : Int) (rid : String) (data : String),
    (lookupS rid m = none → (handleResponse m now rid data).1 = false) ∧
    (∀ p : PendingRequest String, lookupS rid m = some p →
      now - p.requestTime > p.timeout →
      (handleResponse m now rid data).1 = false) ∧
    (∀ p : PendingRequest String, lookupS rid m = some p →
      ¬(now - p.requestTime > p.timeout) →
      (handleResponse m now rid data).1 = true ∧
      lookupS rid (handleResponse m now rid data).2 = none)

/-- A fresh pending request used in the concrete correlator scenarios. -/
def demoEntry : PendingRequest String :=
  ⟨"r1", "zeus", "athena", 0, 30, none⟩

/-- A correlator state holding exactly the fresh entry `demoEntry`. -/
def demoMap : PendingMap String := [("r1", demoEntry)]

/-- C2 (counterexample): on a fresh pending entry handle_response
delivers and returns true, but the entry is still present afterwards —
the code only removes entries on the expiry path; successful delivery
leaves removal to the waiter. -/
theorem c2_counterexample : ¬ c2Claimed := by
  intro h
  have h3 := (h demoMap 0 "r1" "ok").2.2 demoEntry rfl (by decide)
  have hv : lookupS "r1" (handleResponse demoMap 0 "r1" "ok").2
      = some { demoEntry with slot := some "ok" } := rfl
  rw [h3.2] at hv
  cases hv

/-- C2 (amended): handle_response returns false when the entry is absent,
and false when the entry has expired (removing it in that case);
otherwise, when the single-slot response queue is empty, it delivers the
data and returns true but leaves the pending entry in the map (removal
happens later, in wait_for_response or the cleanup sweep); when the slot
is already occupied it returns false and leaves the state unchanged. -/
theorem c2_handle_response_cases {α : Type} (m : PendingMap α)
    (now : Int) (rid : String) (data : α) :
    (lookupS rid m = none → handleResponse m now rid data = (false, m)) ∧
    (∀ p : PendingRequest α, lookupS rid m = some p →
      now - p.requestTime > p.timeout →
      handleResponse m now rid data = (false, (removeRequest m rid).1) ∧
      lookupS rid (handleResponse m now rid data).2 = none) ∧
    (∀ p : PendingRequest α, lookupS rid m = some p →
      ¬(now - p.requestTime > p.timeout) → p.slot = none →
      (handleResponse m now rid data).1 = true ∧
      lookupS rid (handleResponse m now rid data).2
        = some { p with slot := some data }) ∧
    (∀ p : PendingRequest α, lookupS rid m = some p →
      ¬(now - p.requestTime > p.timeout) → ∀ a : α, p.slot = some a →
      handleResponse m now rid data = (false, m)) := by
  refine ⟨?_, ?_, ?_, ?_⟩
  · intro h
    simp [handleResponse, h]
  · intro p hp hexp
    refine ⟨by simp [handleResponse, hp, hexp], ?_⟩
    simp only [handleResponse, hp, if_pos hexp]
    exact lookupS_filter_ne rid m
  · intro p hp hfresh hslot
    have hm : handleResponse m now rid data
        = (true, updateS rid { p with slot := some data } m) := by
      simp [handleResponse, hp, hfresh, hslot]
    rw [hm]
    exact ⟨rfl, lookupS_updateS rid m p _ hp⟩
  · intro p hp hfresh a hs
    simp [handleResponse, hp, hfresh, hs]

/-- C2 witness: the delivery case of the amended theorem at a concrete
fresh entry. -/
theorem c2_witness :
    (handleResponse demoMap 0 "r1" "ok").1 = true ∧
    lookupS "r1" (handleResponse demoMap 0 "r1" "ok").2
      = some { demoEntry with slot := some "ok" } :=
  (c2_handle_response_cases demoMap 0 "r1" "ok").2.2.1 demoEntry rfl
    (by decide) rfl

/-- C8: on a pending entry with an empty waiting slot, two
handle_response calls with the same request id deliver exactly once —
the first returns true and fills the single response slot; the second
finds the slot full (put_nowait raises Full), returns false, and the
delivered response is untouched. -/
theorem c8_second_response_rejected {α : Type} (m : PendingMap α)
    (now : Int) (rid : String) (p : PendingRequest α) (d1 d2 : α)
    (hp : lookupS rid m = some p) (hslot : p.slot = none)
    (hfresh : ¬(now - p.requestTime > p.timeout)) :
    (handleResponse m now rid d1).1 = true ∧
    (handleResponse (handleResponse m now rid d1).2 now rid d2).1 = false ∧
    lookupS rid (handleResponse (handleResponse m now rid d1).2 now rid d2).2
      = some { p with slot := some d1 } := by
  have hm1 : handleResponse m now rid d1
      = (true, updateS rid { p with slot := some d1 } m) := by
    simp [handleResponse, hp, hfresh, hslot]
  have hl1 : lookupS rid (updateS rid { p with slot := some d1 } m)
      = some { p with slot := some d1 } :=
    lookupS_updateS rid m p _ hp
  have hm2 : handleResponse (updateS rid { p with slot := some d1 } m) now rid d2
      = (false, updateS rid { p with slot := some d1 } m) := by
    simp [handleResponse, hl1, hfresh]
  rw [hm1]
  exact ⟨rfl, by rw [hm2], by rw [hm2]; exact hl1⟩

/-- C8 witness: the double-response scenario run on the concrete fresh
entry. -/
theorem c8_witness :
    (handleResponse demoMap 0 "r1" "a").1 = true ∧
    (handleResponse (handleResponse demoMap 0 "r1" "a").2 0 "r1" "b").1 = false ∧
    lookupS "r1" (handleResponse (handleResponse demoMap 0 "r1" "a").2 0 "r1" "b").2
      = some { demoEntry with slot := some "a" } :=
  c8_second_response_rejected demoMap 0 "r1" demoEntry "a" "b" rfl rfl (by decide)

/-- C9: cancel_request always returns false — `_remove_request` has no
return statement, so its value is None and `is not None` never holds —
even though the call does remove an existing pending entry from the map. -/
theorem c9_cancel_always_false {α : Type} (m : PendingMap α) (rid : String) :
    (cancelRequest m rid).1 = false ∧
    lookupS rid (cancelRequest m rid).2 = none :=
  ⟨rfl, lookupS_filter_ne rid m⟩

/-! ## Message (ermis_messenger.py) -/

/-- Message of ermis_messenger.py.  Python `time.time()` float timestamps
are modelled as integers; the id is the f-string
`source-destination-timestamp`. -/
structure Message where
  source : String
  destination : String
  content : Data
  msgType : String
  timestamp : Int
  id : String
  data : Data
  requestId : Option String
  isResponse : Bool

/-- Message.__init__ at construction time `now`. -/
def mkMessage (source destination : String) (content : Data) (msgType : String)
    (requestId : Option String) (isResponse : Bool) (now : Int) : Message :=
  { source := source
    destination := destination
    content := content
    msgType := msgType
    timestamp := now
    id := source ++ "-" ++ destination ++ "-" ++ toString now
    data := match content with
            | .dict kvs => .dict kvs
            | c => .dict [("data", c)]
    requestId := requestId
    isResponse := isResponse }

/-! ## Olympus routing (ermis_olympus.py) -/

/-- The Domain enum of ermis_olympus.py. -/
inductive Domain where
  | language
  | intelligence
  | time
  | performance
  | messaging
  | database
  | knowledge
  | patterns
  | cache
  | nlp
  | evaluation
  | compilation
  | learning
  | storage
  | validation
  | orchestration
  | common
  | health
deriving DecidableEq

/-- RoutingRule of ermis_olympus.py (fallback_gods defaults to None). -/
structure RoutingRule where
  domain : Domain
  primaryGod : String
  fallbackGods : Option (List String)
  description : String

/-- First-match association-list lookup with Domain keys
(Python dict lookup on the routing table). -/
def lookupD {β : Type} (k : Domain) : List (Domain × β) → Option β
  | [] => none
  | (k2, v) :: rest => if k2 = k then some v else lookupD k rest

/-- Olympus._initialize_routing_table, in source order. -/
def routingTable : List (Domain × RoutingRule) :=
  [(.language, ⟨.language, "zeus", none, "Language parsing, syntax, execution"⟩),
   (.evaluation, ⟨.evaluation, "zeus", none, "Code evaluation and execution"⟩),
   (.intelligence, ⟨.intelligence, "athena", none, "AI operations, understanding, suggestions"⟩),
   (.nlp, ⟨.nlp, "athena", none, "Natural language processing"⟩),
   (.learning, ⟨.learning, "athena", some ["cronos"], "Machine learning and pattern learning"⟩),
   (.time, ⟨.time, "cronos", none, "Scheduling, time management"⟩),
   (.database, ⟨.database, "cronos", none, "Database operations"⟩),
   (.knowledge, ⟨.knowledge, "cronos", none, "Knowledge storage and retrieval"⟩),
   (.patterns, ⟨.patterns, "cronos", some ["athena"], "Pattern storage and management"⟩),
   (.performance, ⟨.performance, "lightning", none, "Performance optimization"⟩),
   (.cache, ⟨.cache, "lightning", none, "Caching operations"⟩),
   (.compilation, ⟨.compilation, "lightning", none, "Code compilation and optimization"⟩),
   (.messaging, ⟨.messaging, "ermis", none, "Inter-god communication"⟩),
   (.orchestration, ⟨.orchestration, "orchestrator", none, "System-wide coordination"⟩),
   (.common, ⟨.common, "common", none, "Shared utilities"⟩),
   (.health, ⟨.health, "zeus", some ["orchestrator"], "System health monitoring"⟩)]

/-- Olympus._initialize_request_types, in source order. -/
def requestTypeMapping : List (String × Domain) :=
  [("parse_expression", .language),
   ("evaluate_code", .evaluation),
   ("execute_code", .evaluation),
   ("validate_syntax", .language),
   ("nlp_request", .nlp),
   ("suggestion_request", .intelligence),
   ("help_request", .intelligence),
   ("analyze", .intelligence),
   ("understand", .nlp),
   ("store_variable", .database),
   ("get_variable", .database),
   ("store_function", .database),
   ("get_function", .database),
   ("database_request", .database),
   ("store_concept", .database),
   ("get_concept", .database),
   ("start_session", .knowledge),
   ("end_session", .knowledge),
   ("store_pattern", .patterns),
   ("get_pattern", .patterns),
   ("get_all_patterns", .patterns),
   ("learn_pattern", .learning),
   ("record_learning", .learning),
   ("learn_from_code", .learning),
   ("get_usage_patterns", .learning),
   ("schedule_task", .time),
   ("cancel_task", .time),
   ("get_schedule", .time),
   ("optimize_code", .compilation),
   ("cache_result", .cache),
   ("get_cached", .cache),
   ("compile_code", .compilation),
   ("health_check", .health),
   ("system_status", .orchestration),
   ("broadcast", .messaging),
   ("store", .database),
   ("retrieve", .database),
   ("compute", .evaluation),
   ("learn", .learning),
   ("query", .database)]

/-- A request dict as the router and validator see it: the fields the
code reads (`type`, `intent`, `data`, `from`, `request_id`); `none`
models an absent key, and an absent `data` key is already the empty
dict default `request.get('data', {})` uses. -/
structure Request where
  rtype : Option String
  intent : Option String
  data : Data
  sender : Option String
  requestId : Option String

/-- A message handed to a receiver or enqueued for a destination: the
dict `{source, type, data, timestamp}` that ErmisMessenger builds for
receiver.receive_message, tagged with the destination. -/
structure DeliveredMsg where
  source : String
  destination : String
  msgType : String
  data : Data
  timestamp : Int

/-- Uninterpreted machine-level primitives of the Python runtime.
No claim depends on their values; theorems quantify over them.
  `requestSize`   — sys.getsizeof(json.dumps(request)); none models the
                    exception branch of _validate_size (which returns False);
  `inferDomain`   — Olympus._infer_domain, the keyword scan over the
                    Python repr str(request);
  `isLargeData`   — StorageRouter._is_large_data (sys.getsizeof > 10 KB);
  `receivers`     — the dynamically imported god receivers: none means no
                    receiver was loaded for that god, otherwise the
                    receiver's receive_message result (False also covers
                    an exception inside the receiver);
  `queueFull`     — whether queue.put for that god times out full. -/
structure PyEnv where
  requestSize : Request → Option Nat
  inferDomain : Request → Option Domain
  isLargeData : Data → Bool
  receivers : String → Option (DeliveredMsg → Bool)
  queueFull : String → Bool

/-- Olympus.route_request.  `none` models the uncaught KeyError that a
routing-table miss would raise (`self.routing_table[domain]`). -/
def routeRequest (env : PyEnv) (req : Request) :
    Option (String × Option (List String)) :=
  match req.rtype.bind (fun rt => lookupS rt requestTypeMapping) with
  | some dom => (lookupD dom routingTable).map (fun r => (r.primaryGod, r.fallbackGods))
  | none =>
    match env.inferDomain req with
    | some dom => (lookupD dom routingTable).map (fun r => (r.primaryGod, r.fallbackGods))
    | none =>
      match req.sender with
      | some "zeus" => some ("athena", none)
      | some "athena" => some ("cronos", none)
      | some "cronos" => some ("zeus", none)
      | some "lightning" => some ("zeus", none)
      | _ => some ("orchestrator", none)

theorem lookupS_mem {β : Type} {k : String} {v : β} :
    ∀ {l : List (String × β)}, lookupS k l = some v → (k, v) ∈ l := by
  intro l
  induction l with
  | nil => intro h; cases h
  | cons kv rest ih =>
    obtain ⟨k2, v2⟩ := kv
    intro h
    by_cases hk : k2 = k
    · subst hk
      simp only [lookupS, if_pos rfl] at h
      cases h
      exact List.Mem.head _
    · simp only [lookupS, if_neg hk] at h
      exact List.Mem.tail _ (ih h)

/-- C7 exactly as the specification states it: any two distinct Message
constructions produce different id values. -/
def c7Claimed : Prop :=
  ∀ (s1 d1 : String) (c1 : Data) (t1 : String) (r1 : Option String)
    (b1 : Bool) (ts1 : Int)
    (s2 d2 : String) (c2 : Data) (t2 : String) (r2 : Option String)
    (b2 : Bool) (ts2 : Int),
    mkMessage s1 d1 c1 t1 r1 b1 ts1 ≠ mkMessage s2 d2 c2 t2 r2 b2 ts2 →
    (mkMessage s1 d1 c1 t1 r1 b1 ts1).id ≠ (mkMessage s2 d2 c2 t2 r2 b2 ts2).id

/-- C7 (counterexample): two sends with the same source, destination and
timestamp but different content are distinct messages with the same id:
the id is built only from source, destination and timestamp, so it is not
unique per send when time.time() returns the same value twice. -/
theorem c7_counterexample : ¬ c7Claimed := by
  intro h
  refine h "zeus" "athena" (.str "a") "data" none false 0
    "zeus" "athena" (.str "b") "data" none false 0 ?_ rfl
  intro he
  have hc := congrArg Message.content he
  simp only [mkMessage] at hc
  simp only [Data.str.injEq] at hc
  exact absurd hc (by decide)

/-- C7 (amended): a message id is exactly
`source ++ "-" ++ destination ++ "-" ++ timestamp`; it does not depend on
the content or any other field, so ids of two sends coincide whenever
source, destination and timestamp coincide, and uniqueness per send holds
only when those differ. -/
theorem c7_id_structure (s d : String) (c c2 : Data) (mt mt2 : String)
    (r r2 : Option String) (b b2 : Bool) (t : Int) :
    (mkMessage s d c mt r b t).id = s ++ "-" ++ d ++ "-" ++ toString t ∧
    (mkMessage s d c mt r b t).id = (mkMessage s d c2 mt2 r2 b2 t).id :=
  ⟨rfl, rfl⟩

/-- Every request type in the mapping reaches a routing rule whose
primary god is a nonempty name (finite check over the two tables). -/
theorem c4_tables_aligned : ∀ p ∈ requestTypeMapping,
    ((lookupD p.2 routingTable).map
      (fun r => decide (r.primaryGod ≠ ""))).getD false = true := by decide

/-- C4: for every request whose `type` is a key of the
request-type-to-domain mapping, route_request resolves the domain to a
routing rule and returns its (non-null, nonempty) primary god. -/
theorem c4_routing_complete (env : PyEnv) (req : Request) (rt : String)
    (dom : Domain) (htype : req.rtype = some rt)
    (hmap : lookupS rt requestTypeMapping = some dom) :
    ∃ rule : RoutingRule, lookupD dom routingTable = some rule ∧
      routeRequest env req = some (rule.primaryGod, rule.fallbackGods) ∧
      rule.primaryGod ≠ "" := by
  have haux := c4_tables_aligned (rt, dom) (lookupS_mem hmap)
  cases hrule : lookupD dom routingTable with
  | none => rw [hrule] at haux; cases haux
  | some rule =>
    rw [hrule] at haux
    simp only [Option.map_some', Option.getD_some, decide_eq_true_eq] at haux
    refine ⟨rule, rfl, ?_, haux⟩
    simp [routeRequest, htype, hmap, hrule]

/-! ## Security validator (ermis_security.py) -/

/-- SecurityLevel enum. -/
inductive SecurityLevel where
  | publicLevel
  | restricted
  | sensitive
  | critical
deriving DecidableEq

/-- SecurityPolicy (custom_validators defaults to None, which the code
only ever tests for truthiness, so the empty list models it). -/
structure SecurityPolicy where
  operation : String
  level : SecurityLevel
  allowedGods : List String
  rateLimit : Nat
  sizeLimit : Nat
  requiresAudit : Bool
  customValidators : List String
deriving DecidableEq

/-- The most restrictive policy, first in the policy table. -/
def executeCodePolicy : SecurityPolicy :=
  ⟨"execute_code", .critical, ["zeus"], 60, 10240, true, ["validate_code_safety"]⟩

/-- SecurityValidator._initialize_policies, in source (insertion) order. -/
def policies : List (String × SecurityPolicy) :=
  [("execute_code", executeCodePolicy),
   ("store_variable",
     ⟨"store_variable", .restricted, ["zeus", "athena", "cronos", "lightning"], 100, 102400, false, []⟩),
   ("store_function",
     ⟨"store_function", .sensitive, ["zeus", "athena"], 30, 10240, true, ["validate_function_definition"]⟩),
   ("store_pattern",
     ⟨"store_pattern", .sensitive, ["athena", "cronos"], 50, 5120, false, ["validate_pattern_structure"]⟩),
   ("store",
     ⟨"store", .restricted, ["zeus", "athena", "cronos", "lightning"], 100, 102400, false, []⟩),
   ("storage_store",
     ⟨"storage_store", .restricted, ["zeus", "athena", "cronos", "lightning"], 100, 102400, false, []⟩),
   ("storage_retrieve",
     ⟨"storage_retrieve", .publicLevel, ["zeus", "athena", "cronos", "lightning"], 500, 1024, false, []⟩),
   ("storage_query",
     ⟨"storage_query", .publicLevel, ["zeus", "athena", "cronos", "lightning"], 500, 1024, false, []⟩),
   ("storage_learn",
     ⟨"storage_learn", .restricted, ["zeus", "athena", "cronos"], 50, 5120, false, []⟩),
   ("learn_pattern",
     ⟨"learn_pattern", .restricted, ["zeus", "athena"], 50, 10240, false, []⟩),
   ("retrieve",
     ⟨"retrieve", .publicLevel, ["zeus", "athena", "cronos", "lightning"], 1000, 1024, false, []⟩),
   ("query",
     ⟨"query", .publicLevel, ["zeus", "athena", "cronos", "lightning"], 500, 1024, false, []⟩),
   ("broadcast",
     ⟨"broadcast", .sensitive, ["ermis", "orchestrator"], 10, 1024, true, []⟩),
   ("health_check",
     ⟨"health_check", .publicLevel, ["zeus", "athena", "cronos", "lightning", "ermis", "orchestrator"], 100, 256, false, []⟩),
   ("nlp_request",
     ⟨"nlp_request", .restricted, ["zeus", "athena", "cronos"], 100, 10240, false, []⟩)]

/-- The restrictive default policy for unknown operations. -/
def defaultPolicy (op : String) : SecurityPolicy :=
  ⟨op, .restricted, [], 10, 1024, false, []⟩

/-- SecurityValidator._get_policy: exact match, else the first policy
whose name is a substring of the operation or vice versa (Python `in` on
strings, so the empty operation substring-matches the first policy),
else the restrictive default. -/
def getPolicy (op : String) : SecurityPolicy :=
  match lookupS op policies with
  | some p => p
  | none =>
    match policies.find? (fun kv => substrS kv.1 op || substrS op kv.1) with
    | some kv => kv.2
    | none => defaultPolicy op

/-- The operation a request resolves to:
`request.get('type', '') or request.get('intent', '')`. -/
def operationOf (req : Request) : String :=
  if req.rtype.getD "" ≠ "" then req.rtype.getD "" else req.intent.getD ""

/-- RateLimiter state: `{sender:operation ↦ [(timestamp, count)]}`. -/
abbrev RateState := List (String × List (Int × Nat))

/-- The rolling window of the rate limiter, in seconds. -/
def WINDOW : Int := 60

/-- Write a key (overwriting an existing entry, else appending), the way
Python dict assignment behaves. -/
def setKey {β : Type} (st : List (String × β)) (k : String) (v : β) :
    List (String × β) :=
  if (lookupS k st).isSome then updateS k v st else st ++ [(k, v)]

/-- RateLimiter.check_rate at current time `now`: drop entries older than
the window, refuse if the surviving counts reach the limit, otherwise
record this request. -/
def checkRate (st : RateState) (now : Int) (sender op : String) (limit : Nat) :
    Bool × RateState :=
  let key := sender ++ ":" ++ op
  let recent := ((lookupS key st).getD []).filter (fun e => now - e.1 < WINDOW)
  let total := (recent.map Prod.snd).sum
  if total ≥ limit then (false, setKey st key recent)
  else (true, setKey st key (recent ++ [(now, 1)]))

/-- Python identifier regex of the validator:
`^[a-zA-Z_][a-zA-Z0-9_]*$`, first character. -/
def isIdentFirst (c : Char) : Bool :=
  ('a' ≤ c && c ≤ 'z') || ('A' ≤ c && c ≤ 'Z') || c == '_'

/-- Remaining characters of the identifier regex. -/
def isIdentRest (c : Char) : Bool :=
  isIdentFirst c || ('0' ≤ c && c ≤ '9')

/-- SecurityValidator.identifier_pattern match. -/
def isIdentifier (s : String) : Bool :=
  match s.data with
  | [] => false
  | c :: cs => isIdentFirst c && cs.all isIdentRest

/-- Python `s.endswith(t)`. -/
def endsWithCL (needle hay : List Char) : Bool :=
  startsWithCL needle.reverse hay.reverse

/-- ValidationResult of ermis_security.py; `sanitizedData` holds the
whole sanitized request on success. -/
structure ValidationResult where
  valid : Bool
  reason : String
  sanitizedData : Option Request

/-- The system-access regexes of _validate_code_safety, in source order. -/
def systemPatterns : List DPat :=
  [⟨"import\\s+os", "import", .plus, "os"⟩,
   ⟨"import\\s+sys", "import", .plus, "sys"⟩,
   ⟨"import\\s+subprocess", "import", .plus, "subprocess"⟩,
   ⟨"from\\s+os", "from", .plus, "os"⟩,
   ⟨"from\\s+sys", "from", .plus, "sys"⟩]

/-- SecurityValidator._validate_code_safety. -/
def validateCodeSafety (data : Data) : ValidationResult :=
  let c1 := (getField data "code").getD (.str "")
  let code := if pyTruthy c1 then c1 else (getField data "expression").getD (.str "")
  match code with
  | .str s =>
    match dangerousPatterns.find? (fun p => searchPat p (lowerCL s)) with
    | some p => ⟨false, "Dangerous pattern detected: " ++ p.src, none⟩
    | none =>
      if systemPatterns.any (fun p => searchPat p (lowerCL s)) then
        ⟨false, "System access not allowed", none⟩
      else ⟨true, "Code validated", none⟩
  | _ => ⟨false, "Code must be a string", none⟩

/-- SecurityValidator._validate_function_definition. -/
def validateFunctionDefinition (data : Data) : ValidationResult :=
  let nameD := (getField data "name").getD (.str "")
  let paramsD := (getField data "parameters").getD (.list [])
  let bodyD := (getField data "body").getD (.str "")
  match nameD with
  | .str nm =>
    if !(isIdentifier nm) then ⟨false, "Invalid function name", none⟩
    else if startsWithCL "__".data nm.data || endsWithCL "__".data nm.data then
      ⟨false, "Function names cannot start or end with double underscores", none⟩
    else
      match paramsD with
      | .list ps =>
        if ps.all (fun p => match p with | .str s => isIdentifier s | _ => false) then
          match validateCodeSafety (.dict [("code", bodyD)]) with
          | body =>
            if body.valid then ⟨true, "Function validated", none⟩
            else ⟨false, "Invalid function body: " ++ body.reason, none⟩
        else ⟨false, "Invalid parameter name", none⟩
      | _ => ⟨false, "Parameters must be a list", none⟩
  | _ => ⟨false, "Invalid function name", none⟩

/-- Required fields per pattern type in _validate_pattern_structure. -/
def requiredFieldsTable : List (String × List String) :=
  [("greeting", ["name", "template"]),
   ("question", ["name", "template", "action"]),
   ("command", ["name", "template", "action"]),
   ("code_template", ["name", "template", "code"])]

/-- SecurityValidator._validate_pattern_structure. -/
def validatePatternStructure (data : Data) : ValidationResult :=
  let pt := (getField data "pattern_type").getD (.str "")
  let pd := (getField data "pattern_data").getD (.dict [])
  if !(pyTruthy pt) then ⟨false, "Pattern type required", none⟩
  else
    match pd with
    | .dict kvs =>
      let fields := match pt with
        | .str s => (lookupS s requiredFieldsTable).getD ["name", "template"]
        | _ => ["name", "template"]
      match fields.find? (fun f => (lookupS f kvs).isNone) with
      | some f => ⟨false, "Missing required field: " ++ f, none⟩
      | none => ⟨true, "Pattern validated", none⟩
    | _ => ⟨false, "Pattern data must be a dictionary", none⟩

/-- SecurityValidator._run_custom_validator. -/
def runCustomValidator (name : String) (data : Data) : ValidationResult :=
  if name = "validate_code_safety" then validateCodeSafety data
  else if name = "validate_function_definition" then validateFunctionDefinition data
  else if name = "validate_pattern_structure" then validatePatternStructure data
  else ⟨true, "No validator found", none⟩

/-- The custom-validator loop of validate_request: the first failing
validator result, if any. -/
def runValidators : List String → Data → Option ValidationResult
  | [], _ => none
  | n :: rest, data =>
    let r := runCustomValidator n data
    if r.valid then runValidators rest data else some r

/-- AuditEntry; the request itself stands in for its sha256 content hash
(an uninterpreted injection is all the code relies on). -/
structure AuditEntry where
  timestamp : Int
  sender : String
  operation : String
  requestId : String
  request : Request

/-- SecurityValidator._audit_request: append, keeping the last 1000. -/
def appendAudit (log : List AuditEntry) (e : AuditEntry) : List AuditEntry :=
  let log2 := log ++ [e]
  if log2.length > 1000 then log2.drop (log2.length - 1000) else log2

/-- Mutable validator state: the rate-limiter counters and audit log. -/
structure ValidatorState where
  rate : RateState
  audit : List AuditEntry

/-- SecurityValidator._validate_size, with the serialized size supplied
by the environment (none models the exception branch, which returns
False just like an oversized payload). -/
def validateSize (env : PyEnv) (req : Request) (limit : Nat) : Bool :=
  match env.requestSize req with
  | some n => n ≤ limit
  | none => false

/-- SecurityValidator.validate_request at current time `now`: policy
lookup, sender authorization, rate limiting, size check, sanitization,
custom validators, audit, in source order, short-circuiting on the first
failure.  Returns the ValidationResult together with the updated
validator state. -/
def validateRequest (env : PyEnv) (st : ValidatorState) (now : Int)
    (req : Request) (sender : String) : ValidationResult × ValidatorState :=
  let op := operationOf req
  let policy := getPolicy op
  if sender ∈ policy.allowedGods then
    match checkRate st.rate now sender op policy.rateLimit with
    | (ok, rate2) =>
      let st1 : ValidatorState := ⟨rate2, st.audit⟩
      if ok then
        if validateSize env req policy.sizeLimit then
          match sanitizeData req.data 0 with
          | none => (⟨false, "Invalid data structure", none⟩, st1)
          | some sd =>
            match runValidators policy.customValidators req.data with
            | some vr => (vr, st1)
            | none =>
              let st2 : ValidatorState :=
                if policy.requiresAudit then
                  ⟨rate2, appendAudit st.audit ⟨now, sender, op, req.requestId.getD "unknown", req⟩⟩
                else st1
              (⟨true, "Request validated", some { req with data := sd }⟩, st2)
        else
          (⟨false, "Request size exceeds limit of " ++ toString policy.sizeLimit ++ " bytes", none⟩, st1)
      else
        (⟨false, "Rate limit exceeded for " ++ op, none⟩, st1)
  else
    (⟨false, "Sender " ++ sender ++ " not authorized for " ++ op, none⟩, st)

/-! ## Secure routing and the messenger send path
(ermis_olympus.py Olympus.secure_route_request,
ermis_messenger.py ErmisMessenger.send_request). -/

/-- Olympus.secure_route_request: validate, then route the sanitized
request.  The overall `none` models the uncaught KeyError a
routing-table miss would propagate; a validation failure yields no
targets plus the failing result. -/
def secureRouteRequest (env : PyEnv) (st : ValidatorState) (now : Int)
    (req : Request) (sender : String) :
    Option (Option String × Option (List String) × ValidationResult) × ValidatorState :=
  match validateRequest env st now req sender with
  | (vr, st2) =>
    if vr.valid then
      match routeRequest env (vr.sanitizedData.getD req) with
      | some (p, fb) => (some (some p, fb, vr), st2)
      | none => (none, st2)
    else (some (none, none, vr), st2)

/-- The gods known to the messenger (module-level GODS list). -/
def GODS : List String := ["zeus", "athena", "cronos", "lightning", "ermis"]

/-- The request dict as message content (the fields the embedding
tracks, in the shape send_message_full forwards). -/
def Request.toData (req : Request) : Data :=
  .dict ((match req.rtype with | some t => [("type", Data.str t)] | none => []) ++
         (match req.intent with | some i => [("intent", Data.str i)] | none => []) ++
         [("data", req.data)] ++
         (match req.sender with | some f => [("from", Data.str f)] | none => []) ++
         (match req.requestId with | some r => [("request_id", Data.str r)] | none => []))

/-- ErmisMessenger.send_message_full: validate the god names, build the
Message, then either hand it to a loaded receiver (whose boolean answer
is the result) or enqueue it (failing if the queue stays full).  The
second component lists every handoff that took place. -/
def sendMessageFull (env : PyEnv) (source destination : String) (content : Data)
    (msgType : String) (now : Int) : Bool × List DeliveredMsg :=
  if source ∈ GODS ∧ destination ∈ GODS then
    match mkMessage source destination content msgType none false now with
    | msg =>
      match env.receivers destination with
      | some accept =>
        let dm : DeliveredMsg := ⟨source, destination, msgType, msg.data, now⟩
        (accept dm, [dm])
      | none =>
        if env.queueFull destination then (false, [])
        else (true, [⟨source, destination, msgType, msg.data, now⟩])
  else (false, [])

/-- The fallback-target loop of send_request: skip the source itself,
stop at the first successful send, and record every handoff. -/
def trySendAll (env : PyEnv) (source : String) (content : Data) (mt : String)
    (now : Int) : List String → Bool × List DeliveredMsg
  | [] => (false, [])
  | t :: rest =>
    if t ≠ source then
      match sendMessageFull env source t content mt now with
      | (true, ds) => (true, ds)
      | (false, ds) =>
        match trySendAll env source content mt now rest with
        | (b, ds2) => (b, ds ++ ds2)
    else trySendAll env source content mt now rest

/-- `request['from'] = source` when the key is absent. -/
def withSender (req : Request) (source : String) : Request :=
  match req.sender with
  | some _ => req
  | none => { req with sender := some source }

/-- ErmisMessenger.send_request: add `from`, secure-route, refuse on
validation failure, then try the primary target followed by the
fallbacks.  The outer Option models the propagated routing KeyError;
the DeliveredMsg list records every handoff to a target. -/
def sendRequest (env : PyEnv) (st : ValidatorState) (now : Int)
    (source : String) (request : Request) :
    Option (Bool × List DeliveredMsg) × ValidatorState :=
  match secureRouteRequest env st now (withSender request source) source with
  | (none, st2) => (none, st2)
  | (some (primary, fallbacks, vr), st2) =>
    if vr.valid then
      let vreq := vr.sanitizedData.getD (withSender request source)
      let mt := vreq.rtype.getD "olympus_routed"
      match (match primary with
             | some p =>
               if p ≠ "" ∧ p ≠ source then
                 sendMessageFull env source p (Request.toData vreq) mt now
               else (false, [])
             | none => (false, [])) with
      | (true, ds) => (some (true, ds), st2)
      | (false, ds0) =>
        match fallbacks with
        | some fbs =>
          match trySendAll env source (Request.toData vreq) mt now fbs with
          | (b, ds) => (some (b, ds0 ++ ds), st2)
        | none => (some (false, ds0), st2)
    else (some (false, []), st2)

/-! ## Storage router (ermis_olympus.py StorageRouter) -/

/-- Python `d == s` for a string literal `s`: true only on equal
strings. -/
def isStrEqD (d : Data) (s : String) : Bool :=
  match d with
  | .str t => t == s
  | _ => false

/-- StorageRouter._route_store_request.  `none` models the
AttributeError the code raises when `name` is not a string or
`metadata` is not a dict. -/
def routeStoreRequest (env : PyEnv) (data : Data) : Option Data :=
  match (getField data "name").getD (.str "") with
  | .str name =>
    match (getField data "metadata").getD (.dict []) with
    | .dict md =>
      if startsWithCL "_".data name.data then
        some (.dict [("target", .str "lightning"), ("action", .str "cache"),
                     ("ttl", .int 3600)])
      else if isStrEqD ((lookupS "type" md).getD (.str "variable")) "function" then
        some (.dict [("target", .str "cronos"), ("action", .str "store_function"),
                     ("validate", .bool true)])
      else if isStrEqD ((lookupS "type" md).getD (.str "variable")) "pattern" then
        some (.dict [("targets", .list [.str "athena", .str "cronos"]),
                     ("action", .str "validate_and_store"), ("cache", .bool true)])
      else if substrS "session" name || pyTruthy ((lookupS "session_id" md).getD .null) then
        some (.dict [("target", .str "lightning"), ("action", .str "session_cache"),
                     ("ttl", .int 7200)])
      else if env.isLargeData ((getField data "value").getD .null) then
        some (.dict [("target", .str "lightning"), ("action", .str "cache"),
                     ("compress", .bool true)])
      else
        some (.dict [("targets", .list [.str "cronos", .str "lightning"]),
                     ("action", .str "store_and_cache")])
    | _ => none
  | _ => none

/-- StorageRouter._route_retrieve_request. -/
def routeRetrieveRequest (_ : Data) : Data :=
  .dict [("targets", .list [.str "lightning", .str "cronos"]),
         ("action", .str "retrieve_cascade"), ("cache_on_miss", .bool true)]

/-- StorageRouter._route_query_request. -/
def routeQueryRequest (data : Data) : Data :=
  let qt := (getField data "query_type").getD (.str "")
  if isStrEqD qt "list_functions" then
    .dict [("target", .str "cronos"), ("action", .str "query_functions")]
  else if isStrEqD qt "statistics" || isStrEqD qt "metrics" then
    .dict [("targets", .list [.str "lightning", .str "cronos"]),
           ("action", .str "aggregate_stats")]
  else
    .dict [("target", .str "cronos"), ("action", .str "general_query")]

/-- StorageRouter._route_learn_request. -/
def routeLearnRequest (_ : Data) : Data :=
  .dict [("targets", .list [.str "athena", .str "cronos"]),
         ("action", .str "learn_and_store"), ("validate", .bool true),
         ("cache", .bool true)]

/-- The intent dispatch at the bottom of route_storage_request. -/
def dispatchStorage (env : PyEnv) (intent : String) (data : Data) : Option Data :=
  if intent = "store" then routeStoreRequest env data
  else if intent = "retrieve" then some (routeRetrieveRequest data)
  else if intent = "query" then some (routeQueryRequest data)
  else if intent = "learn" then some (routeLearnRequest data)
  else some (.dict [("target", .null),
                    ("error", .str ("Unknown storage intent: " ++ intent))])

/-- StorageRouter.route_storage_request: optional validation (when a
sender is given) under the `storage_<intent>` operation, then the
intent dispatch on the (possibly sanitized) data. -/
def routeStorageRequest (env : PyEnv) (st : ValidatorState) (now : Int)
    (intent : String) (data : Data) (sender : Option String) :
    Option Data × ValidatorState :=
  match sender with
  | some s =>
    match validateRequest env st now
        ⟨some ("storage_" ++ intent), some intent, data, none, none⟩ s with
    | (vr, st2) =>
      if vr.valid then
        (dispatchStorage env intent
          (match vr.sanitizedData with
           | some sreq => sreq.data
           | none => data), st2)
      else
        (some (.dict [("target", .null),
                      ("error", .str ("Validation failed: " ++ vr.reason)),
                      ("validation_failed", .bool true)]), st2)
  | none => (dispatchStorage env intent data, st)

/-! ## Pipeline engine (ermis_pipeline.py)

Stage handlers, conditions and error handlers are modelled as pure
functions; an `Except.error e` result models a raised exception with
message `e`.  Wall-clock stage timeouts (daemon-thread joins) are real
time and are not modelled: a handler either returns or raises.  Stage
durations and the uuid request id of the context carry no logic and are
dropped. -/

/-- StageStatus enum. -/
inductive StageStatus where
  | pending
  | running
  | completed
  | failed
  | skipped
  | cancelled
deriving DecidableEq

/-- The `.value` strings of StageStatus. -/
def StageStatus.value : StageStatus → String
  | .pending => "pending"
  | .running => "running"
  | .completed => "completed"
  | .failed => "failed"
  | .skipped => "skipped"
  | .cancelled => "cancelled"

/-- StageResult (duration dropped; `data` is None or a value). -/
structure StageResult where
  status : StageStatus
  data : Option Data
  error : Option String

/-- PipelineStage: name, handler, skip conditions, retry count and an
optional error handler.  The stage_type tag and the wall-clock timeout
carry no modelled logic. -/
structure PipelineStage where
  name : String
  handler : Data → Except String StageResult
  conditions : List (Data → Except String Bool)
  retryCount : Nat
  onError : Option (String → Except String StageResult)

/-- RequestPipeline._should_execute_stage: every condition must return
True; a raising condition counts as False. -/
def shouldExecute (stage : PipelineStage) (d : Data) : Bool :=
  stage.conditions.all (fun c =>
    match c d with
    | .ok b => b
    | .error _ => false)

/-- The retry loop of RequestPipeline._execute_stage: `fuel` remaining
retries after the current attempt.  On the last failure the stage's
error handler is consulted; if it is absent or itself raises, a FAILED
StageResult carrying the exception message is produced. -/
def execAttempts (stage : PipelineStage) (d : Data) : Nat → StageResult
  | 0 =>
    match stage.handler d with
    | .ok r => r
    | .error e =>
      match stage.onError with
      | some h =>
        match h e with
        | .ok r => r
        | .error _ => ⟨.failed, some d, some e⟩
      | none => ⟨.failed, some d, some e⟩
  | n + 1 =>
    match stage.handler d with
    | .ok r => r
    | .error _ => execAttempts stage d n

/-- RequestPipeline._execute_stage: up to retry_count + 1 attempts. -/
def execStage (stage : PipelineStage) (d : Data) : StageResult :=
  execAttempts stage d stage.retryCount

/-- An ASCII single-quote character, for the failure message text. -/
def sQuote : String := String.singleton (Char.ofNat 39)

/-- The error text of _handle_pipeline_failure
(str(None) prints as None when a FAILED result carries no error). -/
def stageFailMsg (name : String) (err : Option String) : String :=
  "Stage " ++ sQuote ++ name ++ sQuote ++ " failed: " ++ err.getD "None"

/-- The observable outcome of RequestPipeline.execute: overall status,
final data, overall error, the stage-result ledger in execution order,
and which stage handlers were actually invoked. -/
structure RunOut where
  status : StageStatus
  data : Data
  error : Option String
  results : List (String × StageResult)
  invoked : List String

/-- The stage loop of RequestPipeline.execute: skipped stages are
recorded and leave the data unchanged; a FAILED stage stops the run with
its wrapped error; a completed stage's non-None data replaces the
current data. -/
def runStages : List PipelineStage → Data → RunOut
  | [], d => ⟨.completed, d, none, [], []⟩
  | stage :: rest, d =>
    if shouldExecute stage d then
      match execStage stage d with
      | r =>
        if r.status = .failed then
          ⟨.failed, d, some (stageFailMsg stage.name r.error),
           [(stage.name, r)], [stage.name]⟩
        else
          match runStages rest (r.data.getD d) with
          | out =>
            ⟨out.status, out.data, out.error,
             (stage.name, r) :: out.results, stage.name :: out.invoked⟩
    else
      match runStages rest d with
      | out =>
        ⟨out.status, out.data, out.error,
         (stage.name, ⟨.skipped, some d, none⟩) :: out.results, out.invoked⟩

/-- C5: if the stage-result ledger of a pipeline run contains a FAILED
entry, the run stopped there: the overall status is FAILED, the overall
error wraps that stage's error, the ledger covers exactly the stages up
to and including the failing one (in pipeline order), and no later
stage's handler was invoked. -/
theorem c5_failed_stage_stops_pipeline (stages : List PipelineStage) (d : Data)
    (nm : String) (r : StageResult)
    (hmem : (nm, r) ∈ (runStages stages d).results)
    (hfail : r.status = .failed) :
    (runStages stages d).status = .failed ∧
    (runStages stages d).error = some (stageFailMsg nm r.error) ∧
    ∃ k, k < stages.length ∧
      (stages.map PipelineStage.name)[k]? = some nm ∧
      (runStages stages d).results.map Prod.fst
        = (stages.map PipelineStage.name).take (k + 1) ∧
      (runStages stages d).invoked ⊆ (stages.map PipelineStage.name).take (k + 1) := by
  induction stages generalizing d with
  | nil => simp [runStages] at hmem
  | cons stage rest ih =>
    by_cases hexec : shouldExecute stage d
    · by_cases hfailed : (execStage stage d).status = .failed
      · have hrun : runStages (stage :: rest) d
            = ⟨.failed, d, some (stageFailMsg stage.name (execStage stage d).error),
               [(stage.name, execStage stage d)], [stage.name]⟩ := by
          simp [runStages, hexec, hfailed]
        rw [hrun] at hmem ⊢
        simp only [List.mem_singleton] at hmem
        injection hmem with h1 h2
        subst h1
        subst h2
        exact ⟨rfl, rfl, 0, by simp, by simp, by simp, by simp⟩
      · have hrun : runStages (stage :: rest) d
            = ⟨(runStages rest ((execStage stage d).data.getD d)).status,
               (runStages rest ((execStage stage d).data.getD d)).data,
               (runStages rest ((execStage stage d).data.getD d)).error,
               (stage.name, execStage stage d)
                 :: (runStages rest ((execStage stage d).data.getD d)).results,
               stage.name
                 :: (runStages rest ((execStage stage d).data.getD d)).invoked⟩ := by
          simp [runStages, hexec, hfailed]
        rw [hrun] at hmem ⊢
        rcases List.mem_cons.mp hmem with hhead | htail
        · injection hhead with h1 h2
          subst h1
          subst h2
          exact absurd hfail hfailed
        · obtain ⟨hst, herr, k, hk, hnm, hres, hinv⟩ :=
            ih ((execStage stage d).data.getD d) htail
          refine ⟨hst, herr, k + 1, by simpa using hk, by simpa using hnm, ?_, ?_⟩
          · simpa [List.take_succ_cons] using hres
          · simp only [List.map_cons, List.take_succ_cons]
            exact List.cons_subset_cons _ hinv
    · have hrun : runStages (stage :: rest) d
          = ⟨(runStages rest d).status, (runStages rest d).data,
             (runStages rest d).error,
             (stage.name, ⟨.skipped, some d, none⟩) :: (runStages rest d).results,
             (runStages rest d).invoked⟩ := by
        simp [runStages, hexec]
      rw [hrun] at hmem ⊢
      rcases List.mem_cons.mp hmem with hhead | htail
      · injection hhead with h1 h2
        subst h2
        cases hfail
      · obtain ⟨hst, herr, k, hk, hnm, hres, hinv⟩ := ih d htail
        refine ⟨hst, herr, k + 1, by simpa using hk, by simpa using hnm, ?_, ?_⟩
        · simpa [List.take_succ_cons] using hres
        · simp only [List.map_cons, List.take_succ_cons]
          exact hinv.trans (List.subset_cons_self _ _)

/-- Demo pipeline stage A: completes, passing the data through. -/
def demoA : PipelineStage :=
  ⟨"A", fun d => .ok ⟨.completed, some d, none⟩, [], 0, none⟩

/-- Demo pipeline stage B: always raises, with two retries. -/
def demoB : PipelineStage :=
  ⟨"B", fun _ => .error "boom", [], 2, none⟩

/-- Demo pipeline stage C: would complete, but is never reached. -/
def demoC : PipelineStage :=
  ⟨"C", fun d => .ok ⟨.completed, some d, none⟩, [], 0, none⟩

/-- The spec's example pipeline [A(ok), B(always fails, 2 retries), C]. -/
def demoStages : List PipelineStage := [demoA, demoB, demoC]

/-- The request the demo pipeline runs on. -/
def demoData : Data := .dict []

/-- C5 witness: on the concrete pipeline [A, B(fails), C] the run is
FAILED with B's wrapped error, the ledger is exactly [A, B], and only A
and B were invoked. -/
theorem c5_witness :
    (runStages demoStages demoData).status = .failed ∧
    (runStages demoStages demoData).error
      = some (stageFailMsg "B" (some "boom")) ∧
    ∃ k, k < demoStages.length ∧
      (demoStages.map PipelineStage.name)[k]? = some "B" ∧
      (runStages demoStages demoData).results.map Prod.fst
        = (demoStages.map PipelineStage.name).take (k + 1) ∧
      (runStages demoStages demoData).invoked
        ⊆ (demoStages.map PipelineStage.name).take (k + 1) :=
  c5_failed_stage_stops_pipeline demoStages demoData "B"
    ⟨.failed, some (.dict []), some "boom"⟩
    (List.Mem.tail _ (List.Mem.head _)) rfl

/-- A concrete environment instantiation for witness scenarios:
zero-sized payloads, no keyword inference, nothing large, no loaded
receivers, queues never full. -/
def stubEnv : PyEnv :=
  { requestSize := fun _ => some 0
    inferDomain := fun _ => none
    isLargeData := fun _ => false
    receivers := fun _ => none
    queueFull := fun _ => false }

/-- An empty validator state (fresh rate limiter, empty audit log). -/
def stateEmpty : ValidatorState := ⟨[], []⟩

/-- C4 witness: the routing-completeness theorem at the mapped request
type execute_code. -/
theorem c4_witness :
    ∃ rule : RoutingRule, lookupD .evaluation routingTable = some rule ∧
      routeRequest stubEnv ⟨some "execute_code", none, .dict [], none, none⟩
        = some (rule.primaryGod, rule.fallbackGods) ∧
      rule.primaryGod ≠ "" :=
  c4_routing_complete stubEnv ⟨some "execute_code", none, .dict [], none, none⟩
    "execute_code" .evaluation rfl rfl

/-- C3: when the Security Validator rejects a request,
secure_route_request returns no primary target and no fallback targets
together with the failed validation result, and send_request returns
false having handed the request to no target. -/
theorem c3_validation_failure_blocks (env : PyEnv) (st : ValidatorState)
    (now : Int) (source : String) (request : Request)
    (hinvalid :
      (validateRequest env st now (withSender request source) source).1.valid = false) :
    secureRouteRequest env st now (withSender request source) source
      = (some (none, none,
          (validateRequest env st now (withSender request source) source).1),
         (validateRequest env st now (withSender request source) source).2) ∧
    sendRequest env st now source request
      = (some (false, ([] : List DeliveredMsg)),
         (validateRequest env st now (withSender request source) source).2) := by
  cases hv : validateRequest env st now (withSender request source) source with
  | mk vr st2 =>
    rw [hv] at hinvalid
    have hval : vr.valid = false := hinvalid
    constructor
    · simp [secureRouteRequest, hv, hval]
    · simp [sendRequest, secureRouteRequest, hv, hval]

/-- A request carrying the most restricted operation. -/
def requestExec : Request := ⟨some "execute_code", none, .dict [], none, none⟩

/-- C3 witness: the sender hades is not in execute_code's allowed set,
so validation fails and send_request delivers nothing. -/
theorem c3_witness :
    (validateRequest stubEnv stateEmpty 0 (withSender requestExec "hades")
        "hades").1.valid = false ∧
    sendRequest stubEnv stateEmpty 0 "hades" requestExec
      = (some (false, ([] : List DeliveredMsg)),
         (validateRequest stubEnv stateEmpty 0 (withSender requestExec "hades")
            "hades").2) :=
  ⟨by decide,
   (c3_validation_failure_blocks stubEnv stateEmpty 0 "hades" requestExec
      (by decide)).2⟩

/-- C6: a store-intent storage request whose name has the ephemeral
underscore prefix is routed cache-only to lightning with a TTL; one with
no underscore prefix, no session marker, a type other than function or
pattern, and a value that is not large is routed dual-write to
[cronos, lightning]. -/
theorem c6_store_routing (env : PyEnv) (st : ValidatorState) (now : Int)
    (data : Data) (name : String) (md : List (String × Data))
    (hname : (getField data "name").getD (.str "") = .str name)
    (hmd : (getField data "metadata").getD (.dict []) = .dict md) :
    (startsWithCL "_".data name.data = true →
      routeStorageRequest env st now "store" data none
        = (some (.dict [("target", .str "lightning"), ("action", .str "cache"),
                        ("ttl", .int 3600)]), st)) ∧
    (startsWithCL "_".data name.data = false →
     isStrEqD ((lookupS "type" md).getD (.str "variable")) "function" = false →
     isStrEqD ((lookupS "type" md).getD (.str "variable")) "pattern" = false →
     substrS "session" name = false →
     pyTruthy ((lookupS "session_id" md).getD .null) = false →
     env.isLargeData ((getField data "value").getD .null) = false →
      routeStorageRequest env st now "store" data none
        = (some (.dict [("targets", .list [.str "cronos", .str "lightning"]),
                        ("action", .str "store_and_cache")]), st)) := by
  constructor
  · intro hu
    simp [routeStorageRequest, dispatchStorage, routeStoreRequest, hname, hmd, hu]
  · intro h1 h2 h3 h4 h5 h6
    simp [routeStorageRequest, dispatchStorage, routeStoreRequest, hname, hmd,
      h1, h2, h3, h4, h5, h6]

/-- A store payload with an ephemeral (underscore-prefixed) name. -/
def storeDataTmp : Data := .dict [("name", .str "_tmp")]

/-- A plain store payload: ordinary name, small value, no metadata. -/
def storeDataX : Data := .dict [("name", .str "x"), ("value", .int 1)]

/-- C6 witness: both branches of the store-routing theorem at concrete
payloads. -/
theorem c6_witness :
    routeStorageRequest stubEnv stateEmpty 0 "store" storeDataTmp none
      = (some (.dict [("target", .str "lightning"), ("action", .str "cache"),
                      ("ttl", .int 3600)]), stateEmpty) ∧
    routeStorageRequest stubEnv stateEmpty 0 "store" storeDataX none
      = (some (.dict [("targets", .list [.str "cronos", .str "lightning"]),
                      ("action", .str "store_and_cache")]), stateEmpty) :=
  ⟨(c6_store_routing stubEnv stateEmpty 0 storeDataTmp "_tmp" [] rfl rfl).1 rfl,
   (c6_store_routing stubEnv stateEmpty 0 storeDataX "x" [] rfl rfl).2
     rfl rfl rfl rfl rfl rfl⟩

/-- C10: a request with empty or missing `type` and `intent` resolves to
the empty operation, which substring-matches the first registered policy
execute_code rather than the restrictive default; such a request is
therefore authorized only for the sender zeus and is subject to the
code-safety custom validator and auditing. -/
theorem c10_empty_operation_hits_execute_code (env : PyEnv)
    (st : ValidatorState) (now : Int) (req : Request) (sender : String)
    (ht : req.rtype = none ∨ req.rtype = some "")
    (hi : req.intent = none ∨ req.intent = some "") :
    operationOf req = "" ∧
    getPolicy (operationOf req) = executeCodePolicy ∧
    executeCodePolicy.allowedGods = ["zeus"] ∧
    executeCodePolicy.customValidators = ["validate_code_safety"] ∧
    executeCodePolicy.requiresAudit = true ∧
    (sender ≠ "zeus" → (validateRequest env st now req sender).1.valid = false) := by
  have hop : operationOf req = "" := by
    rcases ht with h | h <;> rcases hi with h2 | h2 <;> simp [operationOf, h, h2]
  refine ⟨hop, by rw [hop]; rfl, rfl, rfl, rfl, ?_⟩
  intro hs
  have hmem : sender ∉ (getPolicy (operationOf req)).allowedGods := by
    rw [hop]
    show sender ∉ ["zeus"]
    simp [hs]
  simp [validateRequest, hmem]

/-- A request with both operation fields absent. -/
def requestBlank : Request := ⟨none, none, .dict [], none, none⟩

/-- C10 witness: the empty-operation theorem at a concrete blank request
and the non-zeus sender athena. -/
theorem c10_witness :
    operationOf requestBlank = "" ∧
    getPolicy (operationOf requestBlank) = executeCodePolicy ∧
    (validateRequest stubEnv stateEmpty 0 requestBlank "athena").1.valid = false :=
  ⟨(c10_empty_operation_hits_execute_code stubEnv stateEmpty 0 requestBlank
      "athena" (Or.inl rfl) (Or.inl rfl)).1,
   (c10_empty_operation_hits_execute_code stubEnv stateEmpty 0 requestBlank
      "athena" (Or.inl rfl) (Or.inl rfl)).2.1,
   (c10_empty_operation_hits_execute_code stubEnv stateEmpty 0 requestBlank
      "athena" (Or.inl rfl) (Or.inl rfl)).2.2.2.2.2 (by decide)⟩

end Ermis
